import Mathlib

/-!
Shallow embedding of the tabex-bot dosing schedule and reminder engine.

Sources embedded here:
* `src/core/models/tabex_log.py` — the `TabexLog` dose record and its
  `mark_taken` / `mark_missed` / `mark_skipped` transitions;
* `src/config/tabex_phases.py` — the five-phase configuration table,
  `get_phase_for_day`, `get_current_phase`, `get_next_dose_time_slots`;
* `src/core/services/schedule_service.py` — `calculate_daily_schedule`,
  `get_overdue_doses`, `get_next_dose_time`;
* `src/core/services/reminder_service.py` — the reminder-loop send/throttle
  decision, the auto-miss timer arithmetic and firing step, and
  `handle_dose_postpone`.

Modelling conventions:
* Python `datetime` values are integers counting seconds (the engine works at
  whole-second granularity everywhere the claims touch it); a calendar date is
  the integer `t / 86400` (floor division, as `Int.ediv`), matching Python's
  date extraction for the positive epochs used here.
* `date` values (e.g. `course.start_date`) are integer day numbers.
* "HH:MM" time-of-day strings are embedded as minutes-of-day (`Nat < 1440`);
  `strftime("%H:%M")` of a datetime is its total minutes modulo 1440.
* `interval_hours` is a Python float holding an exact half-hour multiple in
  every configured phase; it is embedded as `ℚ`, and `int(h * 60)` as
  `(h * 60).floor` (truncation; all configured values are positive and exact).
* `datetime.now()` / `date.today()` become an explicit `now` argument, with
  `date.today()` read as the calendar date of `now`.
-/

namespace Tabex

/-- A datetime, as whole seconds. -/
abbrev DateTime := Int

/-- Calendar date of a datetime (`datetime.date()`), as an integer day
(`/` on `Int` is Euclidean division, which is floor division for the positive
divisor used here, matching Python). -/
def dtDate (t : DateTime) : Int := t / 86400

/-- Time of day of a datetime (`datetime.time()`), as seconds within the day. -/
def dtTimeOfDay (t : DateTime) : Int := t % 86400

/-- Hour component of a datetime (`datetime.hour`). -/
def dtHour (t : DateTime) : Int := dtTimeOfDay t / 3600

/-- Minute component of a datetime (`datetime.minute`). -/
def dtMinute (t : DateTime) : Int := dtTimeOfDay t % 3600 / 60

/-- `datetime.combine(date, time)` for a date (integer day) and a time of day
given in seconds. -/
def mkDateTime (date : Int) (secondsOfDay : Int) : DateTime :=
  date * 86400 + secondsOfDay

/-- `src/core/models/tabex_log.py` — the `TabexLog` dataclass.  Status is the
raw string, exactly as the dataclass stores `TabexLogStatus.*.value`. -/
structure TabexLog where
  log_id : Option Int
  course_id : Int
  scheduled_time : DateTime
  actual_time : Option DateTime := none
  status : String := "scheduled"
  phase : Int := 1
  character_response : Option String := none
  created_at : Option DateTime := none
  deriving DecidableEq, Repr

/-- `TabexLog.is_scheduled`. -/
def TabexLog.is_scheduled (l : TabexLog) : Bool := l.status == "scheduled"

/-- `TabexLog.is_taken`. -/
def TabexLog.is_taken (l : TabexLog) : Bool := l.status == "taken"

/-- `TabexLog.is_missed`. -/
def TabexLog.is_missed (l : TabexLog) : Bool := l.status == "missed"

/-- `TabexLog.is_skipped`. -/
def TabexLog.is_skipped (l : TabexLog) : Bool := l.status == "skipped"

/-- `TabexLog.mark_taken(actual_time=None, character_response="")`:
sets `status = "taken"`, `actual_time = actual_time or datetime.now()`
(`now` models `datetime.now()`), and overwrites `character_response` only when
the given response string is non-empty. -/
def TabexLog.mark_taken (now : DateTime) (a : Option DateTime) (resp : String)
    (l : TabexLog) : TabexLog :=
  let l1 := { l with status := "taken", actual_time := some (a.getD now) }
  if resp ≠ "" then { l1 with character_response := some resp } else l1

/-- `TabexLog.mark_missed(character_response="")`. -/
def TabexLog.mark_missed (resp : String) (l : TabexLog) : TabexLog :=
  let l1 := { l with status := "missed" }
  if resp ≠ "" then { l1 with character_response := some resp } else l1

/-- `TabexLog.mark_skipped(character_response="")`. -/
def TabexLog.mark_skipped (resp : String) (l : TabexLog) : TabexLog :=
  let l1 := { l with status := "skipped" }
  if resp ≠ "" then { l1 with character_response := some resp } else l1

/-- `src/config/tabex_phases.py` — `PhaseType`. -/
inductive PhaseType where
  | initial | intensive | reduction | minimal | completion
  deriving DecidableEq, Repr

/-- `src/config/tabex_phases.py` — the `TabexPhaseConfig` dataclass. -/
structure TabexPhaseConfig where
  phase_number : Int
  day_range : Int × Int
  interval_hours : ℚ
  doses_per_day : Nat
  character : String
  phase_type : PhaseType
  special_events : List (Int × String)
  description : String
  deriving DecidableEq, Repr

/-- `TabexPhaseConfig.is_day_in_phase(day)`:
`day_range[0] <= day <= day_range[1]`. -/
def TabexPhaseConfig.is_day_in_phase (p : TabexPhaseConfig) (day : Int) : Bool :=
  decide (p.day_range.1 ≤ day) && decide (day ≤ p.day_range.2)

/-- Phase 1 of `TABEX_PHASES_CONFIG` (days 1-3, every 2 h, 6 doses). -/
def phase1Config : TabexPhaseConfig :=
  { phase_number := 1, day_range := (1, 3), interval_hours := 2,
    doses_per_day := 6, character := "gaspode", phase_type := .initial,
    special_events := [(1, "Начало программы исправления"),
                       (3, "Переход под надзор стражников")],
    description := "Начальная фаза: арест Гаспода, знакомство с программой. 6 таблеток в день каждые 2 часа." }

/-- Phase 2 of `TABEX_PHASES_CONFIG` (days 4-12, every 2.5 h, 5 doses). -/
def phase2Config : TabexPhaseConfig :=
  { phase_number := 2, day_range := (4, 12), interval_hours := 5/2,
    doses_per_day := 5, character := "nobby_colon", phase_type := .intensive,
    special_events := [(4, "Передача стражникам Шнобби и Колону"),
                       (5, "КРИТИЧЕСКИЙ ДЕНЬ: полный отказ от курения!"),
                       (12, "Конец надзора дуэта стражников")],
    description := "Интенсивная фаза: надзор Шнобби и Колона. 5 таблеток в день каждые 2.5 часа. 5-й день - обязательный полный отказ от курения!" }

/-- Phase 3 of `TABEX_PHASES_CONFIG` (days 13-16, every 3 h, 4 doses). -/
def phase3Config : TabexPhaseConfig :=
  { phase_number := 3, day_range := (13, 16), interval_hours := 3,
    doses_per_day := 4, character := "angua", phase_type := .reduction,
    special_events := [(13, "Передача констеблю Ангве"),
                       (16, "Завершение надзора оборотня")],
    description := "Фаза снижения: надзор Ангвы. 4 таблетки в день каждые 3 часа. Обострённое чутьё на нарушения." }

/-- Phase 4 of `TABEX_PHASES_CONFIG` (days 17-20, every 5 h, 3 doses). -/
def phase4Config : TabexPhaseConfig :=
  { phase_number := 4, day_range := (17, 20), interval_hours := 5,
    doses_per_day := 3, character := "carrot", phase_type := .minimal,
    special_events := [(17, "Передача констеблю Моркоу"),
                       (20, "Конец поддержки самого доброго стражника")],
    description := "Минимальная фаза: поддержка Моркоу. 3 таблетки в день каждые 5 часов. Максимальная вера в успех пациента." }

/-- Phase 5 of `TABEX_PHASES_CONFIG` (days 21-25, every 8 h, 2 doses). -/
def phase5Config : TabexPhaseConfig :=
  { phase_number := 5, day_range := (21, 25), interval_hours := 8,
    doses_per_day := 2, character := "vimes", phase_type := .completion,
    special_events := [(21, "Передача капитану Ваймсу"),
                       (25, "Завершение программы"),
                       (26, "Подготовка к аудиенции у Витинари")],
    description := "Завершающая фаза: контроль Ваймса. 1-2 таблетки в день по потребности. Подготовка к финальной аудиенции." }

/-- `TABEX_PHASES_CONFIG`, in the dict's insertion order 1..5 (the Python
code only ever iterates `self.phases.values()` or indexes key 1, so the
ordered list carries the same information as the dict). -/
def TABEX_PHASES_CONFIG : List TabexPhaseConfig :=
  [phase1Config, phase2Config, phase3Config, phase4Config, phase5Config]

/-- `TabexPhaseManager.get_phase_for_day(day)`: first phase in iteration order
whose day range contains `day`, else `None`. -/
def get_phase_for_day (day : Int) : Option TabexPhaseConfig :=
  TABEX_PHASES_CONFIG.find? (fun p => p.is_day_in_phase day)

/-- `TabexPhaseManager.get_current_phase(current_day)`:
`self.get_phase_for_day(current_day) or self.phases[1]`. -/
def get_current_phase (day : Int) : TabexPhaseConfig :=
  (get_phase_for_day day).getD phase1Config

/-- `int(phase.interval_hours * 60)` — the dose interval in whole minutes,
truncated (all configured intervals are positive, so `int` = floor). -/
def intervalMinutes (p : TabexPhaseConfig) : Nat :=
  (p.interval_hours * 60).floor.toNat

/-- The slot-generation loop of `get_next_dose_time_slots`: starting from a
running datetime measured in total minutes, emit `n` slots; each emitted slot
is the running time formatted with `strftime("%H:%M")`, i.e. its total minutes
modulo 1440, and the interval is added after every slot but the last (adding
it after the last too would not change the emitted list). -/
def slotsAux (interval : Nat) : Nat → Nat → List Nat
  | 0, _ => []
  | n + 1, current => current % 1440 :: slotsAux interval n (current + interval)

/-- `TabexPhaseManager.get_next_dose_time_slots(phase, start_time)` for a
well-formed "HH:MM" start time given as minutes-of-day (the `except ValueError`
fallback for unparseable strings is outside the embedded input space).
Returns the "HH:MM" slots as minutes-of-day. -/
def get_next_dose_time_slots (phase : TabexPhaseConfig) (startMinutes : Nat) :
    List Nat :=
  slotsAux (intervalMinutes phase) phase.doses_per_day startMinutes

/-- `src/core/services/schedule_service.py` — the `DoseSchedule` dataclass. -/
structure DoseSchedule where
  dose_number : Nat
  scheduled_time : DateTime
  phase : Int
  day : Int
  is_overdue : Bool := false
  deriving DecidableEq, Repr

/-- The slot-to-`DoseSchedule` loop of `calculate_daily_schedule`: enumerate
the "HH:MM" slots (as minutes-of-day), combine each with the target date, and
flag `is_overdue = scheduled_datetime < now and target_date <= date.today()`
(`date.today()` is the calendar date of `now`).  The `strptime` guard never
fires because every slot is a well-formed `strftime("%H:%M")` output. -/
def buildSchedules (phaseNumber : Int) (targetDay : Int) (targetDate : Int)
    (now : DateTime) : Nat → List Nat → List DoseSchedule
  | _, [] => []
  | i, s :: rest =>
    { dose_number := i + 1,
      scheduled_time := mkDateTime targetDate ((s : Int) * 60),
      phase := phaseNumber,
      day := targetDay,
      is_overdue := decide (mkDateTime targetDate ((s : Int) * 60) < now) &&
        decide (targetDate ≤ dtDate now) } ::
      buildSchedules phaseNumber targetDay targetDate now (i + 1) rest

/-- `ScheduleService.calculate_daily_schedule(course, first_dose_time,
target_day)`.  `startDate` is `course.start_date` (an integer day);
`first` is the "HH:MM" first-dose time as minutes-of-day; `target_day` is
passed explicitly (the Python default `course.days_since_start` is supplied
by the callers embedded below); `now` models `datetime.now()`. -/
def calculate_daily_schedule (startDate : Int) (first : Nat) (targetDay : Int)
    (now : DateTime) : List DoseSchedule :=
  match get_phase_for_day targetDay with
  | none => []
  | some phase =>
    buildSchedules phase.phase_number targetDay (startDate + (targetDay - 1))
      now 0 (get_next_dose_time_slots phase first)

/-- Membership test of a status in the terminal list
`[TAKEN, MISSED, SKIPPED]` used by `get_overdue_doses`. -/
def isTerminalStatus (s : String) : Bool :=
  s == "taken" || s == "missed" || s == "skipped"

/-- The `(scheduled_time.date(), scheduled_time.time())` dictionary key used
by `get_overdue_doses`. -/
def processedKey (t : DateTime) : Int × Int := (dtDate t, dtTimeOfDay t)

/-- Membership in the `processed_doses` dictionary of `get_overdue_doses`:
some terminal-status log has exactly this `(date, time-of-day)` key (the
dictionary's values are never read, only key membership is tested). -/
def isProcessed (logs : List TabexLog) (key : Int × Int) : Bool :=
  logs.any (fun l => isTerminalStatus l.status && (processedKey l.scheduled_time == key))

/-- The per-day filter of `get_overdue_doses`: skip future doses
(`scheduled_time > now`), skip doses whose key is in `processed_doses`, and
append the rest with `is_overdue` mutated to `True`. -/
def overdueFilter (logs : List TabexLog) (now : DateTime)
    (dss : List DoseSchedule) : List DoseSchedule :=
  dss.filterMap (fun ds =>
    if ds.scheduled_time > now then none
    else if isProcessed logs (processedKey ds.scheduled_time) then none
    else some { ds with is_overdue := true })

/-- `course.days_since_start` = `(date.today() - start_date).days + 1`,
with `date.today()` the calendar date of `now`. -/
def daysSinceStart (startDate : Int) (now : DateTime) : Int :=
  dtDate now - startDate + 1

/-- `ScheduleService.get_overdue_doses(course, first_dose_time,
existing_logs)`: for each day from 1 to `course.days_since_start`, compute the
daily schedule and keep the slots at or before `now` that have no
terminal-status log with exactly matching `(date, time-of-day)`. -/
def get_overdue_doses (startDate : Int) (first : Nat) (logs : List TabexLog)
    (now : DateTime) : List DoseSchedule :=
  ((List.range (daysSinceStart startDate now).toNat).map
      (fun k => Int.ofNat (k + 1))).flatMap
    (fun day => overdueFilter logs now (calculate_daily_schedule startDate first day now))

/-- `min(overdue_doses, key=lambda x: x.scheduled_time)`: Python's `min` with
a key keeps the first element attaining the minimum, i.e. a later element
replaces the running minimum only when strictly smaller. -/
def minBySched : DoseSchedule → List DoseSchedule → DoseSchedule
  | a, [] => a
  | a, b :: r => minBySched (if b.scheduled_time < a.scheduled_time then b else a) r

/-- `ScheduleService.get_next_dose_time(course, first_dose_time,
existing_logs)`: earliest overdue dose if any; else the first dose in today's
schedule (list order) with `scheduled_time > now`; else, when
`days_since_start < 25` and the next day's schedule is non-empty, its first
slot; else `None`. -/
def get_next_dose_time (startDate : Int) (first : Nat) (logs : List TabexLog)
    (now : DateTime) : Option DateTime :=
  match get_overdue_doses startDate first logs now with
  | d :: ds => some ((minBySched d ds).scheduled_time)
  | [] =>
    match (calculate_daily_schedule startDate first (daysSinceStart startDate now)
        now).find? (fun ds => decide (ds.scheduled_time > now)) with
    | some ds => some ds.scheduled_time
    | none =>
      if daysSinceStart startDate now < 25 then
        match calculate_daily_schedule startDate first
            (daysSinceStart startDate now + 1) now with
        | [] => none
        | d :: _ => some d.scheduled_time
      else none

/-- `src/core/services/reminder_service.py` — the throttle test in
`_reminder_loop`: `last_sent is None or (now - last_sent).total_seconds() >=
15 * 60`. -/
def canSendReminder (lastSent : Option DateTime) (now : DateTime) : Bool :=
  match lastSent with
  | none => true
  | some t => decide (now - t ≥ 15 * 60)

/-- Outcome of one pass of the send/arm block of `_reminder_loop`
(lines 192-217): whether a reminder is sent, whether an auto-miss timer task
is created, and the new `last_reminder_sent` entry for the dose key. -/
structure SendDecision where
  sends : Bool
  armsTimer : Bool
  newLastSent : Option DateTime
  deriving DecidableEq, Repr

/-- The send/arm block of `_reminder_loop`: when `can_send_reminder`, send the
reminder, record `last_reminder_sent[dose_key] = now`, and create the
auto-miss task only when `last_sent is None` (the first notification since the
throttle entry for this dose key was last cleared); otherwise do nothing. -/
def reminderSendStep (lastSent : Option DateTime) (now : DateTime) :
    SendDecision :=
  if canSendReminder lastSent now then
    { sends := true, armsTimer := lastSent.isNone, newLastSent := some now }
  else
    { sends := false, armsTimer := false, newLastSent := lastSent }

/-- `_schedule_auto_miss`: `auto_miss_time = dose_time +
timedelta(hours=interval_hours / 2)`, in seconds (ℚ because
`interval_hours` is a float and the delay need not be a whole second for an
arbitrary phase, though every configured phase gives whole seconds). -/
def autoMissTime (p : TabexPhaseConfig) (doseTime : DateTime) : ℚ :=
  (doseTime : ℚ) + p.interval_hours / 2 * 3600

/-- The post-sleep body of `_schedule_auto_miss`: if the user is no longer
active, do nothing; find the log for the dose (`lg` is the result of
`_find_log_by_course_and_time`); if it is already `taken`, do nothing; if a
log was found, apply `mark_missed` with the auto-miss response text and return
the updated record to be persisted; otherwise do nothing. -/
def autoMissFire (resp : String) (active : Bool) (lg : Option TabexLog) :
    Option TabexLog :=
  if !active then none
  else
    match lg with
    | none => none
    | some l => if l.is_taken then none else some (l.mark_missed resp)

/-- The record-lookup predicate of `_find_log_by_course_and_time`: same
calendar date, hour, and minute as the dose time (minute precision, unlike the
exact `(date, time-of-day)` keys of `get_overdue_doses`). -/
def logMatchesMinute (l : TabexLog) (doseTime : DateTime) : Bool :=
  (dtDate l.scheduled_time == dtDate doseTime) &&
  (dtHour l.scheduled_time == dtHour doseTime) &&
  (dtMinute l.scheduled_time == dtMinute doseTime)

/-- In-memory state of `ReminderService` relevant to postponement: the
`postponed_reminders` dict (split into its `user_id -> deadline` entries and
its `f"{user_id}_original_time" -> datetime` entries, which can never collide),
the `last_reminder_sent` dict (its `f"{user_id}_{dose_timestamp}"` string keys
embedded as the `(user_id, dose_timestamp)` pairs they encode), and the
persisted dose records. -/
structure ReminderState where
  postponed_deadline : List (Int × DateTime)
  postponed_original : List (Int × DateTime)
  last_reminder_sent : List ((Int × Int) × DateTime)
  logs : List TabexLog
  deriving DecidableEq, Repr

/-- Dictionary lookup on an association list (latest insertion wins, as the
insert below puts new entries in front). -/
def assocGet {α β : Type} [DecidableEq α] (l : List (α × β)) (k : α) :
    Option β :=
  (l.find? (fun kv => kv.1 == k)).map (fun kv => kv.2)

/-- Dictionary insert/overwrite on an association list. -/
def assocSet {α β : Type} [DecidableEq α] (l : List (α × β)) (k : α) (v : β) :
    List (α × β) :=
  (k, v) :: l.filter (fun kv => kv.1 != k)

/-- Dictionary key removal on an association list (`del d[k]`, guarded by
`if k in d` in the source). -/
def assocDel {α β : Type} [DecidableEq α] (l : List (α × β)) (k : α) :
    List (α × β) :=
  l.filter (fun kv => kv.1 != k)

/-- `ReminderService.handle_dose_postpone(user_id, course_id, dose_timestamp)`
(success path: user and course found): set
`postponed_reminders[user_id] = now + 5 minutes`, store the original dose
time, and clear the `last_reminder_sent` entry for this dose key.  No dose
record is read, created, or written. -/
def handle_dose_postpone (now : DateTime) (userId : Int) (doseTimestamp : Int)
    (st : ReminderState) : ReminderState :=
  { st with
    postponed_deadline := assocSet st.postponed_deadline userId (now + 5 * 60),
    postponed_original := assocSet st.postponed_original userId doseTimestamp,
    last_reminder_sent := assocDel st.last_reminder_sent (userId, doseTimestamp) }

/-- The postponement branch guard of `_reminder_loop` (lines 147-151): a
postponed reminder for the user is emitted at time `t` only when a pending
deadline exists and `t >= postponed_time`. -/
def postponedDue (st : ReminderState) (userId : Int) (t : DateTime) : Bool :=
  match assocGet st.postponed_deadline userId with
  | some d => decide (t ≥ d)
  | none => false

/-- The projection of a `DoseSchedule` that omits the clock-dependent
`is_overdue` flag. -/
def stripOverdue (ds : DoseSchedule) : Nat × DateTime × Int × Int :=
  (ds.dose_number, ds.scheduled_time, ds.phase, ds.day)

/-- A concrete dose record with terminal status `taken` (counterexample
input). -/
def takenLog : TabexLog :=
  { log_id := none, course_id := 1, scheduled_time := 0, status := "taken" }

/-- A concrete dose record with terminal status `skipped` (counterexample
input). -/
def skippedLog : TabexLog :=
  { log_id := none, course_id := 1, scheduled_time := 0, status := "skipped" }

/-- A concrete `taken` record scheduled at 23:00:30 on day 0 (30 seconds past
the 23:00 slot, so it matches the slot at minute precision but not at exact
time-of-day precision). -/
def takenLog83 : TabexLog :=
  { log_id := none, course_id := 1, scheduled_time := 82830, status := "taken" }

/-- The first slot of the day-1 schedule for a course starting on day 0 with
first dose 08:00, as evaluated at time 0 (witness input). -/
def slot0800 : DoseSchedule :=
  { dose_number := 1, scheduled_time := 28800, phase := 1, day := 1, is_overdue := false }

/-- The same 08:00 slot as surfaced by the overdue computation, i.e. with
`is_overdue` set (witness input). -/
def slot0800Overdue : DoseSchedule :=
  { dose_number := 1, scheduled_time := 28800, phase := 1, day := 1, is_overdue := true }

/-! ### Helper lemmas -/

lemma slotsAux_length (m n c : Nat) : (slotsAux m n c).length = n := by
  induction n generalizing c with
  | zero => rfl
  | succ k ih => simp [slotsAux, ih]

lemma slotsAux_get (m : Nat) :
    ∀ (n c i : Nat) (h : i < (slotsAux m n c).length),
      (slotsAux m n c).get ⟨i, h⟩ = (c + i * m) % 1440 := by
  intro n
  induction n with
  | zero => intro c i h; simp [slotsAux] at h
  | succ k ih =>
    intro c i h
    match i with
    | 0 => simp [slotsAux]
    | j + 1 =>
      have h2 : j < (slotsAux m k (c + m)).length := by
        simpa [slotsAux, slotsAux_length] using h
      have := ih (c + m) j h2
      simp only [slotsAux, List.get_cons_succ]
      rw [this]
      ring_nf

lemma mem_slotsAux_lt {m x : Nat} :
    ∀ {n c : Nat}, x ∈ slotsAux m n c → x < 1440 := by
  intro n
  induction n with
  | zero => intro c h; simp [slotsAux] at h
  | succ k ih =>
    intro c h
    rcases (by simpa [slotsAux] using h : x = c % 1440 ∨ x ∈ slotsAux m k (c + m)) with h1 | h1
    · subst h1; exact Nat.mod_lt _ (by norm_num)
    · exact ih h1

lemma buildSchedules_length (p d t : Int) (now : DateTime) :
    ∀ (i : Nat) (l : List Nat), (buildSchedules p d t now i l).length = l.length := by
  intro i l
  induction l generalizing i with
  | nil => rfl
  | cons a r ih => simp [buildSchedules, ih]

lemma mem_buildSchedules {p d t : Int} {now : DateTime} {ds : DoseSchedule} :
    ∀ {i : Nat} {l : List Nat}, ds ∈ buildSchedules p d t now i l →
      ∃ s ∈ l, ds.scheduled_time = mkDateTime t ((s : Int) * 60) ∧
        ds.phase = p ∧ ds.day = d := by
  intro i l
  induction l generalizing i with
  | nil => intro h; simp [buildSchedules] at h
  | cons a r ih =>
    intro h
    rcases (by simpa [buildSchedules] using h) with h1 | h1
    · exact ⟨a, by simp, by rw [h1], by rw [h1], by rw [h1]⟩
    · obtain ⟨s, hs, hrest⟩ := ih h1
      exact ⟨s, by simp [hs], hrest⟩

lemma buildSchedules_get_time (p d t : Int) (now : DateTime) :
    ∀ (l : List Nat) (i0 j : Nat) (h : j < (buildSchedules p d t now i0 l).length)
      (h2 : j < l.length),
      ((buildSchedules p d t now i0 l).get ⟨j, h⟩).scheduled_time =
        mkDateTime t ((l.get ⟨j, h2⟩ : Int) * 60) := by
  intro l
  induction l with
  | nil => intro i0 j h h2; simp at h2
  | cons a r ih =>
    intro i0 j h h2
    match j with
    | 0 => simp [buildSchedules]
    | k + 1 =>
      have hk : k < (buildSchedules p d t now (i0 + 1) r).length := by
        simpa [buildSchedules, buildSchedules_length] using h
      have hk2 : k < r.length := by simpa using h2
      simpa [buildSchedules, List.get_cons_succ] using ih (i0 + 1) k hk hk2

lemma buildSchedules_get_num (p d t : Int) (now : DateTime) :
    ∀ (l : List Nat) (i0 j : Nat) (h : j < (buildSchedules p d t now i0 l).length),
      ((buildSchedules p d t now i0 l).get ⟨j, h⟩).dose_number = i0 + j + 1 := by
  intro l
  induction l with
  | nil => intro i0 j h; simp [buildSchedules] at h
  | cons a r ih =>
    intro i0 j h
    match j with
    | 0 => simp [buildSchedules]
    | k + 1 =>
      have hk : k < (buildSchedules p d t now (i0 + 1) r).length := by
        simpa [buildSchedules, buildSchedules_length] using h
      have := ih (i0 + 1) k hk
      simp only [buildSchedules, List.get_cons_succ]
      omega

lemma buildSchedules_strip (p d t : Int) (now now2 : DateTime) :
    ∀ (i : Nat) (l : List Nat),
      (buildSchedules p d t now i l).map stripOverdue =
        (buildSchedules p d t now2 i l).map stripOverdue := by
  intro i l
  induction l generalizing i with
  | nil => rfl
  | cons a r ih => simp [buildSchedules, stripOverdue, ih]

lemma intervalMinutes_phase1 : intervalMinutes phase1Config = 120 := by
  simp only [intervalMinutes, phase1Config]
  rw [Rat.floor_def']
  norm_num
  rfl

lemma intervalMinutes_phase2 : intervalMinutes phase2Config = 150 := by
  simp only [intervalMinutes, phase2Config]
  rw [Rat.floor_def']
  norm_num
  rfl

lemma dtDate_mk (d s : Int) (h1 : 0 ≤ s) (h2 : s < 86400) :
    dtDate (mkDateTime d s) = d := by
  unfold dtDate mkDateTime
  rw [add_comm, Int.add_mul_ediv_right _ _ (by norm_num : (86400 : ℤ) ≠ 0),
    Int.ediv_eq_zero_of_lt h1 h2, zero_add]

lemma calculate_eval (startDate : Int) (first : Nat) (day : Int)
    (now : DateTime) (p : TabexPhaseConfig) (m : Nat)
    (hp : get_phase_for_day day = some p) (hm : intervalMinutes p = m) :
    calculate_daily_schedule startDate first day now =
      buildSchedules p.phase_number day (startDate + (day - 1)) now 0
        (slotsAux m p.doses_per_day first) := by
  simp only [calculate_daily_schedule, get_next_dose_time_slots, hp, hm]

lemma get_overdue_eval_one (startDate : Int) (first : Nat)
    (logs : List TabexLog) (now : DateTime)
    (h1 : (daysSinceStart startDate now).toNat = 1)
    (p : TabexPhaseConfig) (m : Nat)
    (hp : get_phase_for_day 1 = some p) (hm : intervalMinutes p = m) :
    get_overdue_doses startDate first logs now =
      overdueFilter logs now
        (buildSchedules p.phase_number 1 startDate now 0
          (slotsAux m p.doses_per_day first)) := by
  rw [get_overdue_doses, h1, show List.range 1 = [0] from rfl]
  simp only [List.map_cons, List.map_nil, List.flatMap_cons, List.flatMap_nil,
    List.append_nil]
  rw [show Int.ofNat (0 + 1) = 1 from rfl,
    calculate_eval startDate first 1 now p m hp hm]
  norm_num

lemma is_day_in_phase_out (p : TabexPhaseConfig) (hp : p ∈ TABEX_PHASES_CONFIG)
    (day : Int) (h : day < 1 ∨ 25 < day) : p.is_day_in_phase day = false := by
  fin_cases hp <;>
    simp only [TabexPhaseConfig.is_day_in_phase, phase1Config, phase2Config,
      phase3Config, phase4Config, phase5Config, Bool.and_eq_false_iff,
      decide_eq_false_iff_not] <;> omega

lemma gpfd_none (day : Int) (h : day < 1 ∨ 25 < day) :
    get_phase_for_day day = none := by
  unfold get_phase_for_day
  rw [List.find?_eq_none]
  intro p hp
  simp [is_day_in_phase_out p hp day h]

lemma countP_day_out (day : Int) (h : day < 1 ∨ 25 < day) :
    TABEX_PHASES_CONFIG.countP (fun p => p.is_day_in_phase day) = 0 := by
  rw [List.countP_eq_zero]
  intro p hp
  simp [is_day_in_phase_out p hp day h]

lemma minBySched_mem : ∀ (l : List DoseSchedule) (a : DoseSchedule),
    minBySched a l ∈ a :: l := by
  intro l
  induction l with
  | nil => intro a; simp [minBySched]
  | cons b r ih =>
    intro a
    rw [minBySched]
    rcases List.mem_cons.mp
        (ih (if b.scheduled_time < a.scheduled_time then b else a)) with h1 | h1
    · rw [h1]; split <;> simp
    · exact List.mem_cons.mpr (Or.inr (List.mem_cons.mpr (Or.inr h1)))

lemma minBySched_le : ∀ (l : List DoseSchedule) (a e : DoseSchedule),
    e ∈ a :: l → (minBySched a l).scheduled_time ≤ e.scheduled_time := by
  intro l
  induction l with
  | nil => intro a e he; simp at he; subst he; simp [minBySched]
  | cons b r ih =>
    intro a e he
    rw [minBySched]
    have hca : (minBySched (if b.scheduled_time < a.scheduled_time then b else a)
        r).scheduled_time ≤
        (if b.scheduled_time < a.scheduled_time then b else a).scheduled_time :=
      ih _ _ (by simp)
    have hcle_a : (if b.scheduled_time < a.scheduled_time then b
        else a).scheduled_time ≤ a.scheduled_time := by
      split <;> [exact le_of_lt (by assumption); exact le_rfl]
    have hcle_b : (if b.scheduled_time < a.scheduled_time then b
        else a).scheduled_time ≤ b.scheduled_time := by
      split <;> [exact le_rfl; exact le_of_not_lt (by assumption)]
    rcases List.mem_cons.mp he with h1 | h1
    · subst h1; exact le_trans hca hcle_a
    · rcases List.mem_cons.mp h1 with h2 | h2
      · subst h2; exact le_trans hca hcle_b
      · exact ih _ e (List.mem_cons.mpr (Or.inr h2))

lemma find?_some_split {α : Type} (p : α → Bool) :
    ∀ (l : List α) (x : α), l.find? p = some x →
      ∃ pre post, l = pre ++ x :: post ∧ p x = true ∧ ∀ y ∈ pre, p y = false := by
  intro l
  induction l with
  | nil => intro x h; simp at h
  | cons a r ih =>
    intro x h
    by_cases hpa : p a = true
    · rw [List.find?_cons_of_pos _ hpa] at h
      injection h with h
      exact ⟨[], r, by simp [h], by rw [← h]; exact hpa, by simp⟩
    · rw [List.find?_cons_of_neg _ hpa] at h
      obtain ⟨pre, post, hsplit, hx, hpre⟩ := ih x h
      refine ⟨a :: pre, post, by simp [hsplit], hx, ?_⟩
      intro y hy
      rcases List.mem_cons.mp hy with h1 | h1
      · subst h1; simpa using hpa
      · exact hpre y h1

lemma assocGet_set_self {α β : Type} [DecidableEq α] (l : List (α × β)) (k : α)
    (v : β) : assocGet (assocSet l k v) k = some v := by
  simp [assocGet, assocSet, List.find?_cons_of_pos]

lemma assocGet_del_self {α β : Type} [DecidableEq α] (l : List (α × β)) (k : α) :
    assocGet (assocDel l k) k = none := by
  unfold assocGet assocDel
  rw [List.find?_eq_none.mpr]
  · rfl
  · intro kv hkv
    have := (List.mem_filter.mp hkv).2
    simpa [bne] using this

/-! ### Claim theorems -/

/-- C1 counterexample: the transition operations of `TabexLog` are not
guarded: `mark_missed` applied to a record whose status is already terminal
(`taken`) does not leave the record unchanged — it overwrites the status with
`missed`. -/
theorem C1_counterexample :
    isTerminalStatus takenLog.status = true ∧
    takenLog.mark_missed "" ≠ takenLog ∧
    (takenLog.mark_missed "").status = "missed" := by
  decide

/-- C1 (amended): each transition operation unconditionally sets its target
status — no transition ever produces the `scheduled` status, and re-applying
the *same* transition with the same arguments is a no-op — but the operations
carry no terminal-status guard, so a different transition applied to a
terminal record overwrites it (per the counterexample). -/
theorem C1_transitions (now : DateTime) (a : Option DateTime) (resp : String)
    (l : TabexLog) :
    (l.mark_taken now a resp).status = "taken" ∧
    (l.mark_missed resp).status = "missed" ∧
    (l.mark_skipped resp).status = "skipped" ∧
    (l.mark_taken now a resp).status ≠ "scheduled" ∧
    (l.mark_missed resp).status ≠ "scheduled" ∧
    (l.mark_skipped resp).status ≠ "scheduled" ∧
    (l.mark_taken now a resp).mark_taken now a resp = l.mark_taken now a resp ∧
    (l.mark_missed resp).mark_missed resp = l.mark_missed resp ∧
    (l.mark_skipped resp).mark_skipped resp = l.mark_skipped resp := by
  unfold TabexLog.mark_taken TabexLog.mark_missed TabexLog.mark_skipped
  by_cases h : resp = "" <;> simp [h]

/-- C2 counterexample: when the auto-miss timer fires on a record that is no
longer `scheduled` but `skipped` (a terminal status other than `taken`), the
firing is not a no-op: the record is overwritten to `missed`. -/
theorem C2_counterexample :
    skippedLog.is_scheduled = false ∧
    autoMissFire "Автопропуск через 1.0ч" true (some skippedLog) =
      some (skippedLog.mark_missed "Автопропуск через 1.0ч") ∧
    (skippedLog.mark_missed "Автопропуск через 1.0ч").status = "missed" := by
  decide

/-- C2 (amended): the reminder loop arms an auto-miss timer exactly when it
sends a reminder whose dose key has no `last_reminder_sent` entry (the first
notification since that entry was last cleared — handlers clear it, so a slot
can arm more than one timer over its lifetime); the timer is set for
`interval_hours / 2` after the slot's *scheduled* dose time (not after the
notification); and when it fires it is a no-op only if the loop was
deactivated, no record was found, or the record is `taken` — any other record,
`scheduled` or terminal, is overwritten to `missed`. -/
theorem C2_auto_miss_spec (lastSent : Option DateTime) (now : DateTime)
    (p : TabexPhaseConfig) (d : DateTime) (resp : String) (l : TabexLog)
    (lg : Option TabexLog) :
    ((reminderSendStep lastSent now).armsTimer = true ↔ lastSent = none) ∧
    ((reminderSendStep lastSent now).armsTimer = true →
      (reminderSendStep lastSent now).sends = true) ∧
    autoMissTime p d - (d : ℚ) = p.interval_hours * 1800 ∧
    autoMissFire resp false lg = none ∧
    autoMissFire resp true none = none ∧
    (l.is_taken = true → autoMissFire resp true (some l) = none) ∧
    (l.is_taken = false →
      autoMissFire resp true (some l) = some (l.mark_missed resp) ∧
      (l.mark_missed resp).status = "missed") := by
  refine ⟨?_, ?_, ?_, ?_, ?_, ?_, ?_⟩
  · cases lastSent with
    | none => simp [reminderSendStep, canSendReminder]
    | some t =>
      simp only [reminderSendStep]
      split <;> simp
  · intro h
    simp only [reminderSendStep] at h ⊢
    split at h <;> simp_all [reminderSendStep]
  · unfold autoMissTime; ring
  · simp [autoMissFire]
  · simp [autoMissFire]
  · intro h; simp [autoMissFire, h]
  · intro h
    refine ⟨by simp [autoMissFire, h], ?_⟩
    unfold TabexLog.mark_missed
    split <;> rfl

/-- C2 witness: the timer-firing no-op branch, at a concrete `taken` record. -/
theorem C2_auto_miss_spec_witness :
    autoMissFire "x" true (some takenLog) = none :=
  (C2_auto_miss_spec none 0 phase1Config 0 "x" takenLog none).2.2.2.2.2.1
    (by decide)

/-- C8: for every day in 1..25 the phase lookup finds a phase and exactly one
configured day range contains the day (the five ranges partition 1..25 with no
gaps and no overlaps); for every day outside 1..25 the lookup returns `none`
and no range contains the day. -/
theorem C8_phase_table_partition (day : Int) :
    (1 ≤ day ∧ day ≤ 25 →
      TABEX_PHASES_CONFIG.countP (fun p => p.is_day_in_phase day) = 1 ∧
      ∃ p, get_phase_for_day day = some p) ∧
    (¬(1 ≤ day ∧ day ≤ 25) →
      TABEX_PHASES_CONFIG.countP (fun p => p.is_day_in_phase day) = 0 ∧
      get_phase_for_day day = none) := by
  constructor
  · rintro ⟨h1, h2⟩
    interval_cases day <;> exact ⟨by decide, ⟨_, rfl⟩⟩
  · intro h
    have hd : day < 1 ∨ 25 < day := by omega
    exact ⟨countP_day_out day hd, gpfd_none day hd⟩

/-- C8 witness: the in-range branch at day 7 (phase 2). -/
theorem C8_phase_table_partition_witness :
    TABEX_PHASES_CONFIG.countP (fun p => p.is_day_in_phase 7) = 1 ∧
    ∃ p, get_phase_for_day 7 = some p :=
  (C8_phase_table_partition 7).1 (by constructor <;> decide)

/-- C10: for every day outside 1..25 (including 0, negatives, and 26+),
`get_current_phase` falls back to the phase-1 configuration, while the plain
lookup `get_phase_for_day` reports `none`. -/
theorem C10_current_phase_fallback (day : Int) (h : ¬(1 ≤ day ∧ day ≤ 25)) :
    get_current_phase day = phase1Config ∧ get_phase_for_day day = none := by
  have hd : day < 1 ∨ 25 < day := by omega
  have hn := gpfd_none day hd
  exact ⟨by simp [get_current_phase, hn], hn⟩

/-- C10 witness: day 26, just past the course limit. -/
theorem C10_current_phase_fallback_witness :
    get_current_phase 26 = phase1Config ∧ get_phase_for_day 26 = none :=
  C10_current_phase_fallback 26 (by omega)

/-- C9: `handle_dose_postpone` creates no dose record and changes no record's
status (the persisted logs are untouched), removes the slot's throttle entry,
stores the original slot time, sets the pending deadline to exactly 5 minutes
after the call, and a postponed re-notification for the user can only be
emitted at a time at least 5 minutes after the call. -/
theorem C9_postpone_spec (now : DateTime) (userId doseTimestamp : Int)
    (st : ReminderState) :
    (handle_dose_postpone now userId doseTimestamp st).logs = st.logs ∧
    assocGet (handle_dose_postpone now userId doseTimestamp st).last_reminder_sent
      (userId, doseTimestamp) = none ∧
    assocGet (handle_dose_postpone now userId doseTimestamp st).postponed_deadline
      userId = some (now + 5 * 60) ∧
    assocGet (handle_dose_postpone now userId doseTimestamp st).postponed_original
      userId = some doseTimestamp ∧
    (∀ t, postponedDue (handle_dose_postpone now userId doseTimestamp st)
      userId t = true → now + 5 * 60 ≤ t) := by
  refine ⟨rfl, ?_, ?_, ?_, ?_⟩
  · exact assocGet_del_self _ _
  · exact assocGet_set_self _ _ _
  · exact assocGet_set_self _ _ _
  · intro t ht
    unfold postponedDue at ht
    rw [show assocGet (handle_dose_postpone now userId doseTimestamp
        st).postponed_deadline userId = some (now + 5 * 60) from
      assocGet_set_self _ _ _] at ht
    simpa using ht

/-- C9 witness: a concrete postponement at time 0 whose re-notification is
checked at time 310 s. -/
theorem C9_postpone_spec_witness :
    (handle_dose_postpone 0 1 100 ⟨[], [], [], []⟩).logs = [] ∧
    (0 : Int) + 5 * 60 ≤ 310 := by
  have h := C9_postpone_spec 0 1 100 ⟨[], [], [], []⟩
  exact ⟨h.1, h.2.2.2.2 310 (by decide)⟩

/-- C3 counterexample: phase 1 (2-hour interval), day 1, first dose 23:00,
course start at day 0.  The second slot is pushed past midnight, but instead
of falling after the first slot on the following calendar date, it wraps back
into the target day's date: its datetime (01:00 on day 0, i.e. 3600 s) lies on
the same calendar date as, and *before*, the first slot (23:00 on day 0,
82800 s). -/
theorem C3_counterexample :
    (calculate_daily_schedule 0 1380 1 0).map (fun d => d.scheduled_time) =
      [82800, 3600, 10800, 18000, 25200, 32400] ∧
    dtDate 3600 = dtDate 82800 ∧ (3600 : Int) < 82800 := by
  rw [calculate_eval 0 1380 1 0 phase1Config 120 rfl intervalMinutes_phase1]
  refine ⟨by decide, by decide, by decide⟩

/-- C3 (amended): slot datetimes are *bounded* by calendar day — the "HH:MM"
slot strings wrap modulo 24 hours and every slot is combined with the target
day's date, so every slot datetime of a day's schedule lies on that day's
calendar date (`course.start_date + (day - 1)`); a slot pushed past midnight
therefore wraps back into the target date and precedes the previous slot
rather than following it. -/
theorem C3_slots_bounded_by_day (startDate : Int) (first : Nat) (day : Int)
    (now : DateTime) (ds : DoseSchedule)
    (h : ds ∈ calculate_daily_schedule startDate first day now) :
    dtDate ds.scheduled_time = startDate + (day - 1) := by
  unfold calculate_daily_schedule at h
  cases heq : get_phase_for_day day with
  | none => rw [heq] at h; simp at h
  | some p =>
    rw [heq] at h
    obtain ⟨s, hs, htime, -, -⟩ := mem_buildSchedules h
    have hlt : s < 1440 := mem_slotsAux_lt hs
    rw [htime]
    exact dtDate_mk _ _ (by positivity) (by exact_mod_cast by omega)

/-- C3 witness: the first slot of the 08:00 phase-1 schedule lies on the
course's first calendar day. -/
theorem C3_slots_bounded_by_day_witness :
    dtDate slot0800.scheduled_time = 0 + (1 - 1) := by
  have hmem : slot0800 ∈ calculate_daily_schedule 0 480 1 0 := by
    rw [calculate_eval 0 480 1 0 phase1Config 120 rfl intervalMinutes_phase1]
    decide
  exact C3_slots_bounded_by_day 0 480 1 0 slot0800 hmem

/-- C4 counterexample: `calculate_daily_schedule` consults the wall clock for
its `is_overdue` flags, so two invocations with identical
`(course, first_dose_time, day)` arguments made at different times (here
before and after the 08:00 slot of day 1) yield different slot lists. -/
theorem C4_counterexample :
    calculate_daily_schedule 0 480 1 0 ≠ calculate_daily_schedule 0 480 1 30000 := by
  rw [calculate_eval 0 480 1 0 phase1Config 120 rfl intervalMinutes_phase1,
    calculate_eval 0 480 1 30000 phase1Config 120 rfl intervalMinutes_phase1]
  decide

/-- C4 (amended): the day-schedule computation is deterministic given the
evaluation time, and every field of every slot *except* the clock-dependent
`is_overdue` flag is determined by `(course, first_dose_time, day)` alone:
the lists produced at any two evaluation times agree after projecting away
`is_overdue`. -/
theorem C4_schedule_deterministic (startDate : Int) (first : Nat) (day : Int)
    (now now2 : DateTime) :
    calculate_daily_schedule startDate first day now =
      calculate_daily_schedule startDate first day now ∧
    (calculate_daily_schedule startDate first day now).map stripOverdue =
      (calculate_daily_schedule startDate first day now2).map stripOverdue := by
  refine ⟨rfl, ?_⟩
  unfold calculate_daily_schedule
  cases get_phase_for_day day with
  | none => rfl
  | some p => exact buildSchedules_strip _ _ _ now now2 _ _

/-- C7 counterexample: phase 1, day 1, first dose 22:00.  The second slot's
datetime (midnight, wrapped back to the target date: 0 s) is not the first
slot's datetime (79200 s) plus the 120-minute interval. -/
theorem C7_counterexample :
    (calculate_daily_schedule 0 1320 1 0).map (fun d => d.scheduled_time) =
      [79200, 0, 7200, 14400, 21600, 28800] ∧
    ¬ ((0 : Int) = 79200 + 120 * 60) := by
  rw [calculate_eval 0 1320 1 0 phase1Config 120 rfl intervalMinutes_phase1]
  refine ⟨by decide, by decide⟩

/-- C7 (amended): for a day covered by a phase and a valid first-dose time,
the day schedule has exactly `doses_per_day` slots, numbered from 1; slot 1 is
the day's date combined with the first-dose time, and slot *i* carries the
time-of-day `first + (i-1) * interval` minutes *modulo 24 hours* combined with
the day's date — the truncated-minute interval is added modulo one day, not as
plain datetime addition, so the successor relation of the original claim holds
only while no slot crosses midnight; the 08:00 phase-1 scenario (2 h, 6 doses)
yields 08:00, 10:00, 12:00, 14:00, 16:00, 18:00. -/
theorem C7_day_schedule_slots (startDate : Int) (first : Nat) (day : Int)
    (now : DateTime) (p : TabexPhaseConfig)
    (hp : get_phase_for_day day = some p) (hf : first < 1440) :
    (calculate_daily_schedule startDate first day now).length = p.doses_per_day ∧
    (∀ (i : Nat) (h : i < (calculate_daily_schedule startDate first day now).length),
      ((calculate_daily_schedule startDate first day now).get ⟨i, h⟩).dose_number = i + 1) ∧
    (∀ (i : Nat) (h : i < (calculate_daily_schedule startDate first day now).length),
      ((calculate_daily_schedule startDate first day now).get ⟨i, h⟩).scheduled_time =
        mkDateTime (startDate + (day - 1))
          ((((first + i * intervalMinutes p) % 1440 : Nat) : Int) * 60)) ∧
    (∀ h0 : 0 < (calculate_daily_schedule startDate first day now).length,
      ((calculate_daily_schedule startDate first day now).get ⟨0, h0⟩).scheduled_time =
        mkDateTime (startDate + (day - 1)) ((first : Int) * 60)) ∧
    (calculate_daily_schedule 0 480 1 0).map (fun d => d.scheduled_time) =
      [28800, 36000, 43200, 50400, 57600, 64800] := by
  have hcalc : calculate_daily_schedule startDate first day now =
      buildSchedules p.phase_number day (startDate + (day - 1)) now 0
        (slotsAux (intervalMinutes p) p.doses_per_day first) :=
    calculate_eval startDate first day now p (intervalMinutes p) hp rfl
  have hlen : (calculate_daily_schedule startDate first day now).length =
      p.doses_per_day := by
    rw [hcalc, buildSchedules_length, slotsAux_length]
  have hget : ∀ (i : Nat) (h : i < (calculate_daily_schedule startDate first day now).length),
      ((calculate_daily_schedule startDate first day now).get ⟨i, h⟩).scheduled_time =
        mkDateTime (startDate + (day - 1))
          ((((first + i * intervalMinutes p) % 1440 : Nat) : Int) * 60) := by
    intro i h
    have h2 : i < (slotsAux (intervalMinutes p) p.doses_per_day first).length := by
      rw [slotsAux_length]
      rw [hlen] at h
      exact h
    rw [List.get_of_eq hcalc ⟨i, h⟩,
      buildSchedules_get_time p.phase_number day (startDate + (day - 1)) now
        _ 0 i _ h2,
      slotsAux_get]
  refine ⟨hlen, ?_, hget, ?_, ?_⟩
  · intro i h
    rw [List.get_of_eq hcalc ⟨i, h⟩, buildSchedules_get_num]
    simp
  · intro h0
    rw [hget 0 h0]
    have hz : (first + 0 * intervalMinutes p) % 1440 = first := by
      simp [Nat.mod_eq_of_lt hf]
    rw [hz]
  · rw [calculate_eval 0 480 1 0 phase1Config 120 rfl intervalMinutes_phase1]
    decide

/-- C7 witness: day 1 is covered by phase 1 and 08:00 is a valid first-dose
time; the day-1 schedule then has that phase's 6 slots. -/
theorem C7_day_schedule_slots_witness :
    (calculate_daily_schedule 0 480 1 0).length = phase1Config.doses_per_day :=
  (C7_day_schedule_slots 0 480 1 0 phase1Config rfl (by decide)).1

/-- C5 counterexample: course start day 0, first dose 23:00, evaluated at
23:59 on day 0, with one persisted `taken` record at 23:00:30.  The record
matches the 23:00 slot at minute precision with a terminal status, yet the
slot is still returned (the code keys the lookup on the exact time-of-day,
seconds included); and the returned sequence is not strictly ascending by
time, because the day's wrapped slots (01:00, 03:00, ... on the same date)
follow the 23:00 slot. -/
theorem C5_counterexample :
    (get_overdue_doses 0 1380 [takenLog83] 86340).map (fun d => d.scheduled_time) =
      [82800, 3600, 10800, 18000, 25200, 32400] ∧
    isTerminalStatus takenLog83.status = true ∧
    logMatchesMinute takenLog83 82800 = true ∧
    ((get_overdue_doses 0 1380 [takenLog83] 86340).map
      (fun d => d.scheduled_time)).get? 0 = some 82800 ∧
    ((get_overdue_doses 0 1380 [takenLog83] 86340).map
      (fun d => d.scheduled_time)).get? 1 = some 3600 ∧
    (3600 : Int) < 82800 := by
  rw [get_overdue_eval_one 0 1380 [takenLog83] 86340 (by decide) phase1Config
    120 rfl intervalMinutes_phase1]
  refine ⟨by decide, by decide, by decide, by decide, by decide, by decide⟩

/-- C5 (amended): every slot returned by the overdue computation has
`scheduled_time ≤ now`, carries `is_overdue = true`, and has no persisted
terminal-status record with *exactly* equal date and time-of-day (the lookup
key is exact to the second, not minute precision); the slots are produced in
day order and within-day slot order, which is not necessarily strictly
ascending by time when a day's slots wrap past midnight. -/
theorem C5_overdue_spec (startDate : Int) (first : Nat) (logs : List TabexLog)
    (now : DateTime) (ds : DoseSchedule)
    (h : ds ∈ get_overdue_doses startDate first logs now) :
    ds.scheduled_time ≤ now ∧ ds.is_overdue = true ∧
    ∀ l ∈ logs, isTerminalStatus l.status = true →
      ¬(dtDate l.scheduled_time = dtDate ds.scheduled_time ∧
        dtTimeOfDay l.scheduled_time = dtTimeOfDay ds.scheduled_time) := by
  unfold get_overdue_doses at h
  obtain ⟨day, hday, hmem⟩ := List.mem_flatMap.mp h
  unfold overdueFilter at hmem
  obtain ⟨a, hal, ha⟩ := List.mem_filterMap.mp hmem
  by_cases h1 : a.scheduled_time > now
  · simp [h1] at ha
  · by_cases h2 : isProcessed logs (processedKey a.scheduled_time) = true
    · simp [h1, h2] at ha
    · simp only [if_neg h1, if_neg h2, Option.some.injEq] at ha
      have hts : ds.scheduled_time = a.scheduled_time := by rw [← ha]
      refine ⟨by rw [hts]; exact le_of_not_lt h1, by rw [← ha], ?_⟩
      intro l hl hterm hkey
      apply h2
      unfold isProcessed
      rw [List.any_eq_true]
      refine ⟨l, hl, ?_⟩
      rw [hterm, Bool.true_and, beq_iff_eq]
      unfold processedKey
      rw [hts] at hkey
      exact Prod.ext hkey.1 hkey.2

/-- C5 witness: with no records, the 08:00 day-1 slot is overdue at 08:20. -/
theorem C5_overdue_spec_witness :
    slot0800Overdue.scheduled_time ≤ 30000 ∧
    slot0800Overdue.is_overdue = true := by
  have hmem : slot0800Overdue ∈ get_overdue_doses 0 480 [] 30000 := by
    rw [get_overdue_eval_one 0 480 [] 30000 (by decide) phase1Config 120 rfl
      intervalMinutes_phase1]
    decide
  have h := C5_overdue_spec 0 480 [] 30000 slot0800Overdue hmem
  exact ⟨h.1, h.2.1⟩

/-- C6 counterexample: course start day 0, first dose 23:00, evaluated at
00:30 on day 0 (no overdue slots).  The next-due-slot computation returns the
23:00 slot — the first list entry with a strictly-future time — even though
the wrapped 01:00 slot (3600 s) of the same day's schedule is also strictly
future and earlier. -/
theorem C6_counterexample :
    get_next_dose_time 0 1380 [] 1800 = some 82800 ∧
    (3600 : Int) ∈ (calculate_daily_schedule 0 1380 1 1800).map (fun d => d.scheduled_time) ∧
    (1800 : Int) < 3600 ∧ (3600 : Int) < 82800 := by
  have hov : get_overdue_doses 0 1380 [] 1800 = [] := by
    rw [get_overdue_eval_one 0 1380 [] 1800 (by decide) phase1Config 120 rfl
      intervalMinutes_phase1]
    decide
  have hday : daysSinceStart 0 1800 = 1 := by decide
  have hcal := calculate_eval 0 1380 1 1800 phase1Config 120 rfl
    intervalMinutes_phase1
  refine ⟨?_, ?_, by norm_num, by norm_num⟩
  · unfold get_next_dose_time
    rw [hov, hday, hcal]
    decide
  · rw [hcal]
    decide

/-- C6 (amended): the next-due-slot computation returns the genuinely earliest
overdue slot when overdue slots exist; with none, it returns the *first slot
in schedule order* of the current day whose time is strictly future (all slots
before it in list order being at or before `now`) — the earliest such slot
only when the schedule is ascending, which fails when slots wrap past
midnight; with no future slot today it returns the first slot of day
`current_day + 1` when `current_day < 25` and that schedule is non-empty, and
`none` otherwise. -/
theorem C6_next_dose_spec (startDate : Int) (first : Nat)
    (logs : List TabexLog) (now : DateTime) :
    (get_overdue_doses startDate first logs now ≠ [] →
      ∃ e ∈ get_overdue_doses startDate first logs now,
        get_next_dose_time startDate first logs now = some e.scheduled_time ∧
        ∀ e2 ∈ get_overdue_doses startDate first logs now,
          e.scheduled_time ≤ e2.scheduled_time) ∧
    (get_overdue_doses startDate first logs now = [] →
      (∃ e ∈ calculate_daily_schedule startDate first
          (daysSinceStart startDate now) now, now < e.scheduled_time) →
      ∃ pre e post,
        calculate_daily_schedule startDate first (daysSinceStart startDate now)
          now = pre ++ e :: post ∧
        now < e.scheduled_time ∧
        (∀ y ∈ pre, y.scheduled_time ≤ now) ∧
        get_next_dose_time startDate first logs now = some e.scheduled_time) ∧
    (get_overdue_doses startDate first logs now = [] →
      (∀ e ∈ calculate_daily_schedule startDate first
          (daysSinceStart startDate now) now, e.scheduled_time ≤ now) →
      daysSinceStart startDate now < 25 →
      (calculate_daily_schedule startDate first
          (daysSinceStart startDate now + 1) now = [] →
        get_next_dose_time startDate first logs now = none) ∧
      (∀ d ds2, calculate_daily_schedule startDate first
          (daysSinceStart startDate now + 1) now = d :: ds2 →
        get_next_dose_time startDate first logs now = some d.scheduled_time)) ∧
    (get_overdue_doses startDate first logs now = [] →
      (∀ e ∈ calculate_daily_schedule startDate first
          (daysSinceStart startDate now) now, e.scheduled_time ≤ now) →
      25 ≤ daysSinceStart startDate now →
      get_next_dose_time startDate first logs now = none) := by
  refine ⟨?_, ?_, ?_, ?_⟩
  · intro hne
    cases hov : get_overdue_doses startDate first logs now with
    | nil => exact absurd hov hne
    | cons d ds =>
      refine ⟨minBySched d ds, minBySched_mem ds d, ?_, ?_⟩
      · unfold get_next_dose_time
        rw [hov]
      · intro e2 he2
        exact minBySched_le ds d e2 he2
  · intro hov hfut
    obtain ⟨e0, he0, he0f⟩ := hfut
    cases hfind : (calculate_daily_schedule startDate first
        (daysSinceStart startDate now) now).find?
        (fun ds => decide (ds.scheduled_time > now)) with
    | none =>
      exfalso
      have := List.find?_eq_none.mp hfind e0 he0
      simp at this
      exact absurd he0f (not_lt.mpr this)
    | some e =>
      obtain ⟨pre, post, hsplit, hpe, hpre⟩ := find?_some_split _ _ _ hfind
      refine ⟨pre, e, post, hsplit, by simpa using hpe, ?_, ?_⟩
      · intro y hy
        have := hpre y hy
        simpa using this
      · unfold get_next_dose_time
        rw [hov, hfind]
  · intro hov hall h25
    have hfind : (calculate_daily_schedule startDate first
        (daysSinceStart startDate now) now).find?
        (fun ds => decide (ds.scheduled_time > now)) = none := by
      rw [List.find?_eq_none]
      intro x hx
      simpa using not_lt.mpr (hall x hx)
    constructor
    · intro hnext
      unfold get_next_dose_time
      rw [hov, hfind, if_pos h25, hnext]
    · intro d ds2 hnext
      unfold get_next_dose_time
      rw [hov, hfind, if_pos h25, hnext]
  · intro hov hall h25
    have hfind : (calculate_daily_schedule startDate first
        (daysSinceStart startDate now) now).find?
        (fun ds => decide (ds.scheduled_time > now)) = none := by
      rw [List.find?_eq_none]
      intro x hx
      simpa using not_lt.mpr (hall x hx)
    unfold get_next_dose_time
    rw [hov, hfind, if_neg (not_lt.mpr h25)]

/-- C6 witness: the current-day branch at start 0, first dose 08:00, time 0 —
a strictly-future slot exists and the computation returns the first such. -/
theorem C6_next_dose_spec_witness :
    ∃ pre e post,
      calculate_daily_schedule 0 480 (daysSinceStart 0 0) 0 = pre ++ e :: post ∧
      (0 : Int) < e.scheduled_time ∧
      (∀ y ∈ pre, y.scheduled_time ≤ 0) ∧
      get_next_dose_time 0 480 [] 0 = some e.scheduled_time := by
  have hov : get_overdue_doses 0 480 [] 0 = [] := by
    rw [get_overdue_eval_one 0 480 [] 0 (by decide) phase1Config 120 rfl
      intervalMinutes_phase1]
    decide
  have hfut : ∃ e ∈ calculate_daily_schedule 0 480 (daysSinceStart 0 0) 0,
      (0 : Int) < e.scheduled_time := by
    rw [show daysSinceStart 0 0 = 1 from by decide,
      calculate_eval 0 480 1 0 phase1Config 120 rfl intervalMinutes_phase1]
    decide
  exact (C6_next_dose_spec 0 480 [] 0).2.1 hov hfut

end Tabex
